import Mathlib

/-!
Verification of the multi-agent task-routing and proactive-coordination
subsystem of the My_Devs_AI_Agent_team repository.

The Python sources under `src/src/agents/tools/` and `src/src/telegram/`
are shallowly embedded: pure routing logic becomes Lean functions, the
database becomes an explicit list of task records, and the network becomes
an oracle mapping attempt numbers to attempt results.
-/

namespace DevTeam

/-- Python `s.lower()`: lower-case every character of a string. -/
def toLowerStr (s : String) : String := String.mk (s.data.map Char.toLower)

/-- `startsWithL n h` holds when the character list `n` is an initial
segment of `h` (helper for Python substring membership). -/
def startsWithL : List Char → List Char → Bool
  | [], _ => true
  | _ :: _, [] => false
  | a :: as, b :: bs => a == b && startsWithL as bs

/-- `occursInL n h`: the character list `n` occurs contiguously inside `h`. -/
def occursInL (needle : List Char) : List Char → Bool
  | [] => startsWithL needle []
  | b :: bs => startsWithL needle (b :: bs) || occursInL needle bs

/-- Python `needle in haystack` on strings: contiguous substring test. -/
def occursIn (needle haystack : String) : Bool :=
  occursInL needle.data haystack.data

/-- One entry of the `DEV_AGENTS` table of
`src/agents/tools/multi_agent_tools.py`: key, endpoint, display name,
specialty text and keyword profile. -/
structure AgentInfo where
  key : String
  endpoint : String
  name : String
  specialty : String
  keywords : List String
deriving DecidableEq, Repr

/-- The static `DEV_AGENTS` registry of `multi_agent_tools.py`
(insertion order: frontend, backend, database). -/
def DEV_AGENTS : List AgentInfo :=
  [ { key := "frontend", endpoint := "http://localhost:3001",
      name := "Frontend Agent", specialty := "HTML/CSS/JS/React/UI/UX",
      keywords :=
        ["frontend", "ui", "ux", "html", "css", "javascript", "typescript",
         "react", "vue", "angular", "component", "interface", "layout",
         "styling", "responsive", "tailwind", "scss", "sass"] },
    { key := "backend", endpoint := "http://localhost:3002",
      name := "Backend Agent", specialty := "Python/Node.js/APIs/Server",
      keywords :=
        ["backend", "api", "server", "endpoint", "python", "nodejs", "express",
         "fastapi", "flask", "django", "rest", "graphql", "microservice",
         "authentication", "authorization", "middleware"] },
    { key := "database", endpoint := "http://localhost:3003",
      name := "Database Agent", specialty := "SQL/PostgreSQL/MongoDB/Data",
      keywords :=
        ["database", "sql", "postgresql", "mysql", "mongodb", "schema",
         "migration", "query", "orm", "data", "storage", "sqlite", "index"] } ]

/-- The combined text blob of `detect_agent_specialty`:
Python `f"(title.lower()) ((description or '').lower())"` with a space
between the two lowered parts. -/
def blobOf (title desc : String) : String :=
  toLowerStr title ++ " " ++ toLowerStr desc

/-- Python `sum(1 for keyword in keywords if keyword in combined)`:
the number of profile keywords occurring in the blob. -/
def scoreAgent (combined : String) (a : AgentInfo) : Nat :=
  (a.keywords.filter (fun kw => occursIn kw combined)).length

/-- Left fold of Python `max(..., key=...)`: keep the current best and
replace it only on a strictly greater score, so the earliest element of
the list wins ties. -/
def pickMax {α : Type} (f : α → Nat) (acc : α) : List α → α
  | [] => acc
  | y :: ys => pickMax f (if f acc < f y then y else acc) ys

/-- Python `max(scores, key=scores.get)` over the insertion-ordered dict:
first key attaining the maximal value, `none` on an empty dict (where the
Python call raises). -/
def maxByFirst {α : Type} (f : α → Nat) : List α → Option α
  | [] => none
  | x :: xs => some (pickMax f x xs)

/-- `detect_agent_specialty` of `multi_agent_tools.py`: score every
registered agent on the lowered title-plus-description blob, take the
first agent with the highest score, and fall back to the sentinel
`"general"` when the best score is zero.  `none` models the `ValueError`
Python would raise on an empty registry (the real registry is never
empty). -/
def detect_agent_specialty (regs : List AgentInfo) (title desc : String) :
    Option String :=
  let combined := blobOf title desc
  match maxByFirst (scoreAgent combined) regs with
  | none => none
  | some best =>
      if scoreAgent combined best = 0 then some "general" else some best.key

theorem pickMax_of_le {α : Type} (f : α → Nat) (acc : α) (l : List α)
    (h : ∀ y ∈ l, f y ≤ f acc) : pickMax f acc l = acc := by
  induction l with
  | nil => rfl
  | cons y ys ih =>
      have hy : ¬ f acc < f y := not_lt.mpr (h y (by simp))
      simp only [pickMax, if_neg hy]
      exact ih (fun z hz => h z (by simp [hz]))

theorem pickMax_first {α : Type} (f : α → Nat) (w : α) (la lb : List α) :
    ∀ acc : α, f acc < f w → (∀ v ∈ la, f v < f w) → (∀ v ∈ lb, f v ≤ f w) →
    pickMax f acc (la ++ w :: lb) = w := by
  induction la with
  | nil =>
      intro acc hacc _ hb
      simp only [List.nil_append, pickMax, if_pos hacc]
      exact pickMax_of_le f w lb hb
  | cons v la ih =>
      intro acc hacc ha hb
      simp only [List.cons_append, pickMax]
      by_cases hv : f acc < f v
      · simp only [if_pos hv]
        exact ih v (ha v (by simp)) (fun z hz => ha z (by simp [hz])) hb
      · simp only [if_neg hv]
        exact ih acc hacc (fun z hz => ha z (by simp [hz])) hb

theorem pickMax_mem {α : Type} (f : α → Nat) (acc : α) (l : List α) :
    pickMax f acc l = acc ∨ pickMax f acc l ∈ l := by
  induction l generalizing acc with
  | nil => exact Or.inl rfl
  | cons y ys ih =>
      simp only [pickMax]
      by_cases hy : f acc < f y
      · simp only [if_pos hy]
        rcases ih y with h | h
        · exact Or.inr (by simp [h])
        · exact Or.inr (by simp [h])
      · simp only [if_neg hy]
        rcases ih acc with h | h
        · exact Or.inl h
        · exact Or.inr (by simp [h])

/-- A zero score is forced when no profile keyword occurs in the blob. -/
theorem scoreAgent_eq_zero (combined : String) (a : AgentInfo)
    (h : ∀ kw ∈ a.keywords, occursIn kw combined = false) :
    scoreAgent combined a = 0 := by
  unfold scoreAgent
  rw [List.length_eq_zero, List.filter_eq_nil_iff]
  intro kw hkw
  simp [h kw hkw]

/-- When no keyword of any registered agent occurs in the blob, the
classifier answers the sentinel `"general"` (shared helper for the
classifier and default-routing claims). -/
theorem detect_eq_general (regs : List AgentInfo) (title desc : String)
    (hne : regs ≠ [])
    (hzero : ∀ a ∈ regs, ∀ kw ∈ a.keywords,
      occursIn kw (blobOf title desc) = false) :
    detect_agent_specialty regs title desc = some "general" := by
  cases regs with
  | nil => exact absurd rfl hne
  | cons x xs =>
      have hmem : pickMax (scoreAgent (blobOf title desc)) x xs = x ∨
          pickMax (scoreAgent (blobOf title desc)) x xs ∈ xs :=
        pickMax_mem _ x xs
      have hz : scoreAgent (blobOf title desc)
          (pickMax (scoreAgent (blobOf title desc)) x xs) = 0 := by
        rcases hmem with h | h
        · rw [h]
          exact scoreAgent_eq_zero _ x (hzero x (by simp))
        · exact scoreAgent_eq_zero _ _ (hzero _ (by simp [h]))
      simp [detect_agent_specialty, maxByFirst, hz]

/-- Claim C5: whenever two or more workers attain the same strictly
highest keyword score (score at least 1), `detect_agent_specialty`
returns the worker registered earliest — formalised as: the first
registered worker `w` whose score is maximal (all earlier workers score
strictly lower, all workers score at most `w`) is the one returned. -/
theorem claim_C5_tie_break (la lb : List AgentInfo) (w : AgentInfo)
    (title desc : String)
    (hscore : 1 ≤ scoreAgent (blobOf title desc) w)
    (hmax : ∀ v ∈ la ++ w :: lb,
      scoreAgent (blobOf title desc) v ≤ scoreAgent (blobOf title desc) w)
    (hfirst : ∀ v ∈ la,
      scoreAgent (blobOf title desc) v < scoreAgent (blobOf title desc) w) :
    detect_agent_specialty (la ++ w :: lb) title desc = some w.key := by
  have hw0 : ¬ scoreAgent (blobOf title desc) w = 0 := by omega
  cases la with
  | nil =>
      have hb : ∀ v ∈ lb,
          scoreAgent (blobOf title desc) v ≤ scoreAgent (blobOf title desc) w :=
        fun v hv => hmax v (by simp [hv])
      have hpick : pickMax (scoreAgent (blobOf title desc)) w lb = w :=
        pickMax_of_le _ w lb hb
      simp [detect_agent_specialty, maxByFirst, hpick, hw0]
  | cons x la2 =>
      have hx : scoreAgent (blobOf title desc) x <
          scoreAgent (blobOf title desc) w := hfirst x (by simp)
      have ha : ∀ v ∈ la2,
          scoreAgent (blobOf title desc) v < scoreAgent (blobOf title desc) w :=
        fun v hv => hfirst v (by simp [hv])
      have hb : ∀ v ∈ lb,
          scoreAgent (blobOf title desc) v ≤ scoreAgent (blobOf title desc) w :=
        fun v hv => hmax v (by simp [hv])
      have hpick : pickMax (scoreAgent (blobOf title desc)) x (la2 ++ w :: lb) = w :=
        pickMax_first _ w la2 lb x hx ha hb
      simp [detect_agent_specialty, maxByFirst, hpick, hw0]

/-- Tied two-worker registry used to witness the tie-break claim. -/
def agentAlpha : AgentInfo :=
  { key := "alpha", endpoint := "http://localhost:3001",
    name := "Alpha Agent", specialty := "a", keywords := ["api"] }

/-- Second worker of the tie-break witness registry, registered after
`agentAlpha` and scoring identically on the witness task. -/
def agentBeta : AgentInfo :=
  { key := "beta", endpoint := "http://localhost:3002",
    name := "Beta Agent", specialty := "b", keywords := ["api"] }

theorem claim_C5_tie_break_w :
    detect_agent_specialty [agentAlpha, agentBeta] "Build api" "" = some "alpha" :=
  claim_C5_tie_break [] [agentBeta] agentAlpha "Build api" ""
    (by decide) (by decide) (by decide)

/-- Claim C6: for every nonempty registry and every task text in which no
registered keyword occurs as a substring of the lowered
title-plus-description blob, the classifier returns the sentinel
`"general"` and never a worker key. -/
theorem claim_C6_general_sentinel (regs : List AgentInfo) (title desc : String)
    (hne : regs ≠ [])
    (hzero : ∀ a ∈ regs, ∀ kw ∈ a.keywords,
      occursIn kw (blobOf title desc) = false) :
    detect_agent_specialty regs title desc = some "general" :=
  detect_eq_general regs title desc hne hzero

/-- Frontend entry of the two-worker registry named by the claim. -/
def frontendFB : AgentInfo :=
  { key := "frontend", endpoint := "http://localhost:3001",
    name := "Frontend Agent", specialty := "fe", keywords := ["react", "css"] }

/-- Backend entry of the two-worker registry named by the claim. -/
def backendFB : AgentInfo :=
  { key := "backend", endpoint := "http://localhost:3002",
    name := "Backend Agent", specialty := "be", keywords := ["api", "server"] }

theorem claim_C6_general_sentinel_w :
    detect_agent_specialty [frontendFB, backendFB] "Update favicon" ""
      = some "general" :=
  claim_C6_general_sentinel [frontendFB, backendFB] "Update favicon" ""
    (by decide) (by decide)

/-! ## Dispatcher: the retry loop of `execute_with_specialist_agent`
(`multi_agent_tools.py`, lines 108-160; the same loop appears in
`dev_agent_tools.py`). -/

/-- What one HTTP attempt of the dispatch loop can produce:
a decoded JSON response (with its `success` flag, optional `error` text
and optional `files_created` list), a `requests` connection error, a
`requests` timeout, or any other exception (for example `response.json()`
failing on an undecodable body). -/
inductive AttemptResult where
  | response (success : Bool) (error : Option String) (filesCreated : List String)
  | connError
  | timeout
  | otherError (msg : String)
deriving DecidableEq, Repr

/-- The caller-visible outcome of one dispatch, one constructor per
`return` site of the Python loop. -/
inductive DispatchOutcome where
  | success (filesCreated : List String)
  | workerRejected (error : String)
  | workerUnavailable
  | timedOut
  | otherFailure (msg : String)
  | exhausted
deriving DecidableEq, Repr

/-- The retry loop `for attempt in range(max_retries)` with
`retry_delay = 1` doubling after every sleep.  `fuel` is the number of
loop iterations left (`max_retries - attempt`); `fuel = 0` inside an
iteration means `attempt = max_retries - 1`, where Python returns the
final failure instead of sleeping.  Returns the outcome, the number of
attempts made, and the list of sleep delays in order. -/
def dispatchGo (oracle : Nat → AttemptResult) :
    Nat → Nat → Nat → List Nat → DispatchOutcome × Nat × List Nat
  | 0, attempt, _, sleeps => (.exhausted, attempt, sleeps)
  | fuel + 1, attempt, delay, sleeps =>
    match oracle attempt with
    | .response true _ files => (.success files, attempt + 1, sleeps)
    | .response false err _ =>
        (.workerRejected (err.getD "Unknown error"), attempt + 1, sleeps)
    | .connError =>
        if fuel = 0 then (.workerUnavailable, attempt + 1, sleeps)
        else dispatchGo oracle fuel (attempt + 1) (delay * 2) (sleeps ++ [delay])
    | .timeout =>
        if fuel = 0 then (.timedOut, attempt + 1, sleeps)
        else dispatchGo oracle fuel (attempt + 1) (delay * 2) (sleeps ++ [delay])
    | .otherError msg =>
        if fuel = 0 then (.otherFailure msg, attempt + 1, sleeps)
        else dispatchGo oracle fuel (attempt + 1) (delay * 2) (sleeps ++ [delay])

/-- One full dispatch: `max_retries = 3`, `retry_delay = 1`, starting at
attempt 0 with no sleeps recorded. -/
def executeDispatch (oracle : Nat → AttemptResult) :
    DispatchOutcome × Nat × List Nat :=
  dispatchGo oracle 3 0 1 []

/-- Whether an attempt produced a decoded response (as opposed to raising
an exception caught by one of the three `except` clauses). -/
def isResponse : AttemptResult → Bool
  | .response _ _ _ => true
  | _ => false

theorem dispatchGo_attempts_le (oracle : Nat → AttemptResult) :
    ∀ fuel attempt delay sleeps,
      (dispatchGo oracle fuel attempt delay sleeps).2.1 ≤ attempt + fuel := by
  intro fuel
  induction fuel with
  | zero => intro attempt delay sleeps; simp [dispatchGo]
  | succ f ih =>
      intro attempt delay sleeps
      cases h : oracle attempt with
      | response b e fs => cases b <;> simp [dispatchGo, h]
      | connError =>
          by_cases hf : f = 0
          · simp [dispatchGo, h, hf]
          · have := ih (attempt + 1) (delay * 2) (sleeps ++ [delay])
            simp [dispatchGo, h, hf]
            omega
      | timeout =>
          by_cases hf : f = 0
          · simp [dispatchGo, h, hf]
          · have := ih (attempt + 1) (delay * 2) (sleeps ++ [delay])
            simp [dispatchGo, h, hf]
            omega
      | otherError m =>
          by_cases hf : f = 0
          · simp [dispatchGo, h, hf]
          · have := ih (attempt + 1) (delay * 2) (sleeps ++ [delay])
            simp [dispatchGo, h, hf]
            omega

theorem dispatchGo_attempts_ge (oracle : Nat → AttemptResult) :
    ∀ fuel attempt delay sleeps,
      attempt ≤ (dispatchGo oracle fuel attempt delay sleeps).2.1 := by
  intro fuel
  induction fuel with
  | zero => intro attempt delay sleeps; simp [dispatchGo]
  | succ f ih =>
      intro attempt delay sleeps
      cases h : oracle attempt with
      | response b e fs => cases b <;> simp [dispatchGo, h]
      | connError =>
          by_cases hf : f = 0
          · simp [dispatchGo, h, hf]
          · have := ih (attempt + 1) (delay * 2) (sleeps ++ [delay])
            simp [dispatchGo, h, hf]
            omega
      | timeout =>
          by_cases hf : f = 0
          · simp [dispatchGo, h, hf]
          · have := ih (attempt + 1) (delay * 2) (sleeps ++ [delay])
            simp [dispatchGo, h, hf]
            omega
      | otherError m =>
          by_cases hf : f = 0
          · simp [dispatchGo, h, hf]
          · have := ih (attempt + 1) (delay * 2) (sleeps ++ [delay])
            simp [dispatchGo, h, hf]
            omega

/-- One loop iteration that catches an exception (any `except` clause)
with retries remaining sleeps and recurses. -/
theorem dispatchGo_step (oracle : Nat → AttemptResult)
    (fuel attempt delay : Nat) (sleeps : List Nat)
    (h : isResponse (oracle attempt) = false) (hf : fuel ≠ 0) :
    dispatchGo oracle (fuel + 1) attempt delay sleeps
      = dispatchGo oracle fuel (attempt + 1) (delay * 2) (sleeps ++ [delay]) := by
  cases g : oracle attempt with
  | response b e fs => simp [isResponse, g] at h
  | connError => simp [dispatchGo, g, hf]
  | timeout => simp [dispatchGo, g, hf]
  | otherError m => simp [dispatchGo, g, hf]

/-- With at least one iteration of fuel, at least one more attempt is
always made. -/
theorem dispatchGo_attempts_succ (oracle : Nat → AttemptResult)
    (fuel attempt delay : Nat) (sleeps : List Nat) :
    attempt + 1 ≤ (dispatchGo oracle (fuel + 1) attempt delay sleeps).2.1 := by
  cases g : oracle attempt with
  | response b e fs => cases b <;> simp [dispatchGo, g]
  | connError =>
      by_cases hf : fuel = 0
      · simp [dispatchGo, g, hf]
      · have h2 := dispatchGo_attempts_ge oracle fuel (attempt + 1) (delay * 2)
          (sleeps ++ [delay])
        simp [dispatchGo, g, hf]
        omega
  | timeout =>
      by_cases hf : fuel = 0
      · simp [dispatchGo, g, hf]
      · have h2 := dispatchGo_attempts_ge oracle fuel (attempt + 1) (delay * 2)
          (sleeps ++ [delay])
        simp [dispatchGo, g, hf]
        omega
  | otherError m =>
      by_cases hf : fuel = 0
      · simp [dispatchGo, g, hf]
      · have h2 := dispatchGo_attempts_ge oracle fuel (attempt + 1) (delay * 2)
          (sleeps ++ [delay])
        simp [dispatchGo, g, hf]
        omega

/-- With one iteration of fuel left, exactly one more attempt is made no
matter what it produces. -/
theorem dispatchGo_one_attempts (oracle : Nat → AttemptResult)
    (attempt delay : Nat) (sleeps : List Nat) :
    (dispatchGo oracle 1 attempt delay sleeps).2.1 = attempt + 1 := by
  cases h : oracle attempt with
  | response b e fs => cases b <;> simp [dispatchGo, h]
  | connError => simp [dispatchGo, h]
  | timeout => simp [dispatchGo, h]
  | otherError m => simp [dispatchGo, h]

/-- Oracle under which the first attempt raises a JSON-decoding error and
the second attempt returns a well-formed success response. -/
def oracleDecodeThenOk : Nat → AttemptResult := fun n =>
  if n = 0 then .otherError "Expecting value: line 1 column 1" else
    .response true none []

/-- Claim C3 counterexample: the claim says a first attempt failing in
any way other than connection failure or timeout (here: an undecodable
response body) causes no further attempt and an immediate failure
return.  The code instead falls into the generic `except Exception`
clause, sleeps 1 time unit and retries: a second attempt is made and the
dispatch even ends in success. -/
theorem claim_C3_counterexample :
    executeDispatch oracleDecodeThenOk = (.success [], 2, [1]) := rfl

/-- Claim C3 (amended): the dispatcher retries every attempt that raises
an exception — connection failure, timeout, and any other error class
alike — and only a decoded response (whatever its success flag) ends the
dispatch immediately: a first-attempt response means exactly one attempt,
a first-attempt exception of any class forces a second attempt, and
exceptions on the first two attempts force all three attempts. -/
theorem claim_C3_retry_classes (oracle : Nat → AttemptResult) :
    (isResponse (oracle 0) = true → (executeDispatch oracle).2.1 = 1) ∧
    (isResponse (oracle 0) = false → 2 ≤ (executeDispatch oracle).2.1) ∧
    (isResponse (oracle 0) = false → isResponse (oracle 1) = false →
      (executeDispatch oracle).2.1 = 3) := by
  refine ⟨?_, ?_, ?_⟩
  · intro h0
    cases h : oracle 0 with
    | response b e fs => cases b <;> simp [executeDispatch, dispatchGo, h]
    | connError => simp [isResponse, h] at h0
    | timeout => simp [isResponse, h] at h0
    | otherError m => simp [isResponse, h] at h0
  · intro h0
    have hstep : dispatchGo oracle 3 0 1 [] = dispatchGo oracle 2 1 2 [1] :=
      dispatchGo_step oracle 2 0 1 [] h0 (by decide)
    have h2 : (1 : Nat) + 1 ≤ (dispatchGo oracle (1 + 1) 1 2 [1]).2.1 :=
      dispatchGo_attempts_succ oracle 1 1 2 [1]
    show 2 ≤ (dispatchGo oracle 3 0 1 []).2.1
    rw [hstep]
    exact h2
  · intro h0 h1
    have hstep1 : dispatchGo oracle 3 0 1 [] = dispatchGo oracle 2 1 2 [1] :=
      dispatchGo_step oracle 2 0 1 [] h0 (by decide)
    have hstep2 : dispatchGo oracle 2 1 2 [1] = dispatchGo oracle 1 2 4 [1, 2] :=
      dispatchGo_step oracle 1 1 2 [1] h1 (by decide)
    show (dispatchGo oracle 3 0 1 []).2.1 = 3
    rw [hstep1, hstep2]
    exact dispatchGo_one_attempts oracle 2 4 [1, 2]

/-- Oracle whose every attempt times out, used to witness the amended
retry-class claim. -/
def oracleAllTimeout : Nat → AttemptResult := fun _ => .timeout

theorem claim_C3_retry_classes_w :
    (executeDispatch oracleAllTimeout).2.1 = 3 :=
  (claim_C3_retry_classes oracleAllTimeout).2.2 rfl rfl

/-- Claim C7: a first attempt answered by a well-formed response with
`success = false` is not retried — the dispatch makes exactly one
attempt, sleeps never, and returns a worker-rejected outcome carrying
the worker's own error text. -/
theorem claim_C7_worker_rejected (oracle : Nat → AttemptResult)
    (err : Option String) (files : List String)
    (h : oracle 0 = .response false err files) :
    executeDispatch oracle
      = (.workerRejected (err.getD "Unknown error"), 1, []) := by
  simp [executeDispatch, dispatchGo, h]

/-- Oracle whose first attempt is a well-formed rejection, used to
witness the non-retry claim. -/
def oracleRejected : Nat → AttemptResult := fun _ =>
  .response false (some "build failed") []

theorem claim_C7_worker_rejected_w :
    executeDispatch oracleRejected = (.workerRejected "build failed", 1, []) :=
  claim_C7_worker_rejected oracleRejected (some "build failed") [] rfl

/-- Claim C8: every dispatch makes at most 3 attempts, and when the
connection fails on the first two attempts and the third attempt decodes
a successful response, the dispatch succeeds after exactly 3 attempts
with backoff delays 1 then 2 (base times two to the retry number). -/
theorem claim_C8_retry_backoff (oracle : Nat → AttemptResult) :
    (executeDispatch oracle).2.1 ≤ 3 ∧
    (∀ err files, oracle 0 = .connError → oracle 1 = .connError →
      oracle 2 = .response true err files →
      executeDispatch oracle = (.success files, 3, [1, 2])) := by
  constructor
  · have := dispatchGo_attempts_le oracle 3 0 1 []
    simpa [executeDispatch] using this
  · intro err files h0 h1 h2
    simp [executeDispatch, dispatchGo, h0, h1, h2]

/-- Oracle failing connection twice then succeeding, used to witness the
retry-backoff claim. -/
def oracleConnTwice : Nat → AttemptResult := fun n =>
  if n < 2 then .connError else .response true none ["app.py"]

theorem claim_C8_retry_backoff_w :
    executeDispatch oracleConnTwice = (.success ["app.py"], 3, [1, 2])
      ∧ (executeDispatch oracleConnTwice).2.1 ≤ 3 :=
  ⟨(claim_C8_retry_backoff oracleConnTwice).2 none ["app.py"] rfl rfl rfl,
   (claim_C8_retry_backoff oracleConnTwice).1⟩

/-! ## Task store, routing, auto-assignment and batch processing
(`multi_agent_tools.py`, `proactive_tools.py`). -/

/-- A task row as the router reads it (`src/core/database.py`).  All
timestamps are whole days, the granularity Python reads off via
`timedelta.days`. -/
structure TaskRec where
  id : Nat
  title : String
  description : Option String
  status : String
  priority : String
  assigned_to : Option String
  due_date : Option Int
  updated_at : Int
  created_at : Int
  project_id : Nat
deriving DecidableEq, Repr

/-- `get_task_by_id`: first task row with the requested id. -/
def get_task_by_id (db : List TaskRec) (task_id : Nat) : Option TaskRec :=
  db.find? (fun t => t.id == task_id)

/-- Where the pre-dispatch part of `execute_with_specialist_agent`
(lines 85-106) ends up: the not-found early return, the unknown-agent
early return, or a POST to the resolved worker endpoint. -/
inductive ExecRoute where
  | notFound (task_id : Nat)
  | unknownAgent (key : String)
  | post (agentKey : String) (endpoint : String)
deriving DecidableEq, Repr

/-- Task lookup, optional auto-detection, the `general -> frontend`
default substitution, and endpoint resolution of
`execute_with_specialist_agent`.  `DEV_AGENTS` is nonempty, so the
`getD "general"` default for an empty-registry classification never
fires. -/
def routeOf (db : List TaskRec) (task_id : Nat) (agent_key : Option String) :
    ExecRoute :=
  match get_task_by_id db task_id with
  | none => .notFound task_id
  | some t =>
      let key0 := match agent_key with
        | none => (detect_agent_specialty DEV_AGENTS t.title
            (t.description.getD "")).getD "general"
        | some k => k
      let key := if key0 = "general" then "frontend" else key0
      match DEV_AGENTS.find? (fun a => a.key == key) with
      | none => .unknownAgent key
      | some a => .post key a.endpoint

/-- Overall result of `execute_with_specialist_agent`, one constructor
per family of return sites. -/
inductive ExecResult where
  | notFound (task_id : Nat)
  | unknownAgent (key : String)
  | dispatched (agentKey : String) (outcome : DispatchOutcome)
deriving DecidableEq, Repr

/-- `execute_with_specialist_agent`: resolve the route, then run the
retry loop against the resolved worker (the network is an oracle keyed
by worker and attempt number). -/
def execute_with_specialist_agent (db : List TaskRec)
    (net : String → Nat → AttemptResult) (task_id : Nat)
    (agent_key : Option String) : ExecResult :=
  match routeOf db task_id agent_key with
  | .notFound i => .notFound i
  | .unknownAgent k => .unknownAgent k
  | .post k _ => .dispatched k (executeDispatch (net k)).1

/-- Claim C10: a task resolving to the sentinel `"general"` (text
matching no worker keywords) dispatched without an explicit agent key is
always posted to the frontend worker endpoint — never to another worker
and never an error. -/
theorem claim_C10_general_default (db : List TaskRec) (task_id : Nat)
    (t : TaskRec) (hfind : get_task_by_id db task_id = some t)
    (hzero : ∀ a ∈ DEV_AGENTS, ∀ kw ∈ a.keywords,
      occursIn kw (blobOf t.title (t.description.getD "")) = false) :
    routeOf db task_id none = .post "frontend" "http://localhost:3001" := by
  have hdet : detect_agent_specialty DEV_AGENTS t.title (t.description.getD "")
      = some "general" :=
    detect_eq_general DEV_AGENTS t.title (t.description.getD "")
      (by decide) hzero
  simp only [routeOf, hfind, hdet]
  decide

/-- Single-row store holding only a task whose text matches no keywords,
used to witness the default-routing claim. -/
def dbFavicon : List TaskRec :=
  [ { id := 1, title := "Update favicon", description := none,
      status := "todo", priority := "medium", assigned_to := none,
      due_date := none, updated_at := 0, created_at := 0, project_id := 1 } ]

theorem claim_C10_general_default_w :
    routeOf dbFavicon 1 none = .post "frontend" "http://localhost:3001" :=
  claim_C10_general_default dbFavicon 1
    { id := 1, title := "Update favicon", description := none,
      status := "todo", priority := "medium", assigned_to := none,
      due_date := none, updated_at := 0, created_at := 0, project_id := 1 }
    rfl (by decide)

/-- The architecture/review keyword set of `auto_assign_task`
(`proactive_tools.py`). -/
def architecture_keywords : List String :=
  ["review code", "architecture", "design plan", "evaluate architecture",
   "refactor strategy", "code review", "technical design"]

/-- Result of `auto_assign_task`: not-found early return, the
lead-reviewer flag for architecture/review tasks, or the result of the
specialist dispatch. -/
inductive AssignResult where
  | notFound (task_id : Nat)
  | leadDev (task_id : Nat)
  | executed (r : ExecResult)
deriving DecidableEq, Repr

/-- `auto_assign_task`: look the task up, send architecture/review tasks
to the lead reviewer instead of dispatching, otherwise dispatch through
`execute_with_specialist_agent` with auto-detection. -/
def auto_assign_task (db : List TaskRec)
    (net : String → Nat → AttemptResult) (task_id : Nat) : AssignResult :=
  match get_task_by_id db task_id with
  | none => .notFound task_id
  | some t =>
      if architecture_keywords.any
          (fun kw => occursIn kw (blobOf t.title (t.description.getD ""))) then
        .leadDev task_id
      else
        .executed (execute_with_specialist_agent db net task_id none)

/-- `batch_assign_tasks`: one `auto_assign_task` call per task id, every
per-task failure caught inside the loop; `none` models the
`No task IDs provided` early return. -/
def batch_assign_tasks (db : List TaskRec)
    (net : String → Nat → AttemptResult) (task_ids : List Nat) :
    Option (List (Nat × AssignResult)) :=
  if task_ids = [] then none
  else some (task_ids.map (fun i => (i, auto_assign_task db net i)))

/-- The four buckets of `distribute_tasks_intelligently`; the code has
no bucket for unresolvable ids. -/
structure Distribution where
  frontend : List Nat
  backend : List Nat
  database : List Nat
  general : List Nat
deriving DecidableEq, Repr

/-- `distribution[agent_key].append(task_id)`.  With the static registry
the detected key is always one of the four bucket names, so the final
no-op arm is unreachable. -/
def addToBucket (d : Distribution) (key : String) (task_id : Nat) :
    Distribution :=
  if key = "frontend" then { d with frontend := d.frontend ++ [task_id] }
  else if key = "backend" then { d with backend := d.backend ++ [task_id] }
  else if key = "database" then { d with database := d.database ++ [task_id] }
  else if key = "general" then { d with general := d.general ++ [task_id] }
  else d

/-- Loop body of `distribute_tasks_intelligently`: ids that resolve to
no task are skipped (the `if task:` guard), resolvable ids are
classified and appended to their bucket. -/
def distStep (db : List TaskRec) (d : Distribution) (i : Nat) : Distribution :=
  match get_task_by_id db i with
  | none => d
  | some t =>
      addToBucket d
        ((detect_agent_specialty DEV_AGENTS t.title
          (t.description.getD "")).getD "general") i

/-- `distribute_tasks_intelligently`: classify every resolvable id into
a bucket; `none` models the `No task IDs provided` early return. -/
def distribute_tasks_intelligently (db : List TaskRec)
    (task_ids : List Nat) : Option Distribution :=
  if task_ids = [] then none
  else some (task_ids.foldl (distStep db) ⟨[], [], [], []⟩)

/-- Total task count of the distribution report
(`sum(len(tasks) for tasks in distribution.values())`). -/
def distTotal (d : Distribution) : Nat :=
  d.frontend.length + d.backend.length + d.database.length + d.general.length

theorem mem_addToBucket (d : Distribution) (key : String) (j i : Nat)
    (hij : i ≠ j)
    (h : i ∉ d.frontend ∧ i ∉ d.backend ∧ i ∉ d.database ∧ i ∉ d.general) :
    i ∉ (addToBucket d key j).frontend ∧ i ∉ (addToBucket d key j).backend ∧
    i ∉ (addToBucket d key j).database ∧ i ∉ (addToBucket d key j).general := by
  unfold addToBucket
  split_ifs <;> simp_all

theorem distStep_not_mem (db : List TaskRec) (i : Nat)
    (hi : get_task_by_id db i = none) :
    ∀ (l : List Nat) (acc : Distribution),
      i ∉ acc.frontend ∧ i ∉ acc.backend ∧ i ∉ acc.database ∧ i ∉ acc.general →
      i ∉ (l.foldl (distStep db) acc).frontend ∧
      i ∉ (l.foldl (distStep db) acc).backend ∧
      i ∉ (l.foldl (distStep db) acc).database ∧
      i ∉ (l.foldl (distStep db) acc).general := by
  intro l
  induction l with
  | nil => intro acc h; simpa using h
  | cons j rest ih =>
      intro acc h
      have hstep : i ∉ (distStep db acc j).frontend ∧
          i ∉ (distStep db acc j).backend ∧
          i ∉ (distStep db acc j).database ∧
          i ∉ (distStep db acc j).general := by
        unfold distStep
        cases hj : get_task_by_id db j with
        | none => simpa using h
        | some t =>
            have hij : i ≠ j := by
              intro he
              rw [he, hj] at hi
              exact Option.noConfusion hi
            exact mem_addToBucket acc _ j i hij h
      simpa using ih (distStep db acc j) hstep

/-- Single-row store (only task id 2 exists) for the batch-processing
counterexample and witness. -/
def dbOneTask : List TaskRec :=
  [ { id := 2, title := "Build api server", description := none,
      status := "todo", priority := "high", assigned_to := none,
      due_date := none, updated_at := 0, created_at := 0, project_id := 1 } ]

/-- Claim C1 counterexample: distributing the two ids 1 and 2 when id 1
resolves to no task yields a plan whose buckets hold only task 2 and
whose reported total is 1, not 2 — the unresolvable id appears in no
bucket and in no explicit not-found outcome, so it is silently ignored,
contradicting the claim. -/
theorem claim_C1_counterexample :
    distribute_tasks_intelligently dbOneTask [1, 2]
        = some (Distribution.mk [] [2] [] [])
      ∧ distTotal (Distribution.mk [] [2] [] []) = 1 :=
  ⟨rfl, rfl⟩

/-- Claim C1 (amended): per-task batch dispatch (`batch_assign_tasks`)
yields exactly one outcome per task id — an unresolvable id yields an
explicit not-found outcome, every resolvable id the outcome of its own
independent auto-assignment, and no single failure aborts the batch —
but the distribution step (`distribute_tasks_intelligently`) silently
drops every unresolvable id: such an id lands in no bucket of the plan,
which has no not-found bucket. -/
theorem claim_C1_batch_isolation (db : List TaskRec)
    (net : String → Nat → AttemptResult) (task_ids : List Nat)
    (hne : task_ids ≠ []) :
    batch_assign_tasks db net task_ids
        = some (task_ids.map (fun i => (i, auto_assign_task db net i)))
      ∧ (∀ i ∈ task_ids, get_task_by_id db i = none →
          auto_assign_task db net i = .notFound i)
      ∧ (∀ d, distribute_tasks_intelligently db task_ids = some d →
          ∀ i ∈ task_ids, get_task_by_id db i = none →
            i ∉ d.frontend ∧ i ∉ d.backend ∧ i ∉ d.database ∧ i ∉ d.general) := by
  refine ⟨by simp [batch_assign_tasks, hne], ?_, ?_⟩
  · intro i _ hi
    simp [auto_assign_task, hi]
  · intro d hd i _ hi
    have hd2 : d = task_ids.foldl (distStep db) ⟨[], [], [], []⟩ := by
      simpa [distribute_tasks_intelligently, hne] using hd.symm
    rw [hd2]
    exact distStep_not_mem db i hi task_ids ⟨[], [], [], []⟩
      (by simp)

/-- Network oracle under which every worker accepts immediately, used by
the batch-isolation witness. -/
def netAlwaysOk : String → Nat → AttemptResult := fun _ _ =>
  .response true none []

theorem claim_C1_batch_isolation_w :
    batch_assign_tasks dbOneTask netAlwaysOk [1, 2]
      = some ([1, 2].map (fun i => (i, auto_assign_task dbOneTask netAlwaysOk i))) :=
  (claim_C1_batch_isolation dbOneTask netAlwaysOk [1, 2] (by decide)).1

/-! ## Proactive monitoring (`query_tools.py`, `scheduler.py`). -/

/-- A project row as the monitor reads it. -/
structure ProjectRec where
  id : Nat
  name : String
  status : String
  priority : String
deriving DecidableEq, Repr

/-- `get_project_by_name`: first project with the given name. -/
def get_project_by_name (projects : List ProjectRec) (name : String) :
    Option ProjectRec :=
  projects.find? (fun p => p.name == name)

/-- `get_active_projects`: projects whose status is `active`. -/
def get_active_projects (projects : List ProjectRec) : List ProjectRec :=
  projects.filter (fun p => p.status == "active")

/-- Insert a task into a created-at-descending list, keeping earlier
elements first on ties. -/
def insertDesc (t : TaskRec) : List TaskRec → List TaskRec
  | [] => [t]
  | u :: us =>
      if u.created_at < t.created_at then t :: u :: us else u :: insertDesc t us

/-- Stable sort by `created_at` descending, the
`order_by(Task.created_at.desc())` of `get_tasks_by_project`. -/
def sortByCreatedDesc : List TaskRec → List TaskRec
  | [] => []
  | t :: ts => insertDesc t (sortByCreatedDesc ts)

/-- `get_tasks_by_project` (`src/core/database.py`): filter by project
and the optional status and assignee filters, then order by creation
time, newest first. -/
def get_tasks_by_project (db : List TaskRec) (project_id : Nat)
    (status : Option String) (assigned : Option String) : List TaskRec :=
  sortByCreatedDesc (db.filter (fun t =>
    t.project_id == project_id
      && (match status with | some s => t.status == s | none => true)
      && (match assigned with | some a => t.assigned_to == some a | none => true)))

/-- The overdue query of `get_project_warnings_tool`: tasks of the
project with a due date strictly in the past and status other than
`done` (the SQL `<` excludes a missing due date). -/
def overdueTasks (db : List TaskRec) (now : Int) (project_id : Nat) :
    List TaskRec :=
  db.filter (fun t =>
    t.project_id == project_id
      && (match t.due_date with | some d => decide (d < now) | none => false)
      && !(t.status == "done"))

/-- The stale-blocked query: blocked tasks last updated more than 3 days
ago. -/
def blockedTasks (db : List TaskRec) (now : Int) (project_id : Nat) :
    List TaskRec :=
  db.filter (fun t =>
    t.project_id == project_id
      && t.status == "blocked"
      && decide (t.updated_at < now - 3))

/-- The unassigned-high-priority query: `todo` tasks with no assignee
and critical or high priority. -/
def unassignedHigh (db : List TaskRec) (project_id : Nat) : List TaskRec :=
  db.filter (fun t =>
    t.project_id == project_id
      && t.assigned_to.isNone
      && (t.priority == "critical" || t.priority == "high")
      && t.status == "todo")

/-- The overdue section of the warnings text: a header plus one bullet
line for each of the first 5 overdue tasks.  Inside this section every
task has a due date, so the `getD` default is never read. -/
def overdueLines (now : Int) (ts : List TaskRec) : List String :=
  if ts = [] then []
  else
    ("⚠️  " ++ toString ts.length ++ " overdue task(s):")
      :: (ts.take 5).map (fun t =>
        "  • #" ++ toString t.id ++ ": " ++ t.title ++ " ("
          ++ toString (now - t.due_date.getD 0) ++ " days overdue)")

/-- The stale-blocked section of the warnings text (its header starts
with a newline, as in the Python f-string). -/
def blockedLines (now : Int) (ts : List TaskRec) : List String :=
  if ts = [] then []
  else
    ("\n⚠️  " ++ toString ts.length ++ " task(s) blocked > 3 days:")
      :: (ts.take 5).map (fun t =>
        "  • #" ++ toString t.id ++ ": " ++ t.title ++ " ("
          ++ toString (now - t.updated_at) ++ " days)")

/-- The unassigned-high-priority section of the warnings text. -/
def unassignedLines (ts : List TaskRec) : List String :=
  if ts = [] then []
  else
    ("\n⚠️  " ++ toString ts.length ++ " unassigned high-priority task(s):")
      :: (ts.take 5).map (fun t =>
        "  • #" ++ toString t.id ++ ": " ++ t.title ++ " (" ++ t.priority ++ ")")

/-- `get_project_warnings_tool` (`query_tools.py`): the three warning
sections joined by newlines, or the fixed no-warnings / project-not-found
texts (Python wraps the project name in single quotes in the latter two;
the quotes are immaterial to every claim and omitted here). -/
def get_project_warnings_tool (projects : List ProjectRec)
    (db : List TaskRec) (now : Int) (project_name : String) : String :=
  match get_project_by_name projects project_name with
  | none => "Error: Project " ++ project_name ++ " not found"
  | some p =>
      let ws := overdueLines now (overdueTasks db now p.id)
        ++ blockedLines now (blockedTasks db now p.id)
        ++ unassignedLines (unassignedHigh db p.id)
      if ws = [] then "✓ No warnings for project " ++ project_name
      else String.intercalate "\n" ws

/-- What one project contributes to a `proactive_task_monitoring` cycle:
the ids handed to `auto_assign_task`, whether the project-alert message
is sent, and the warnings text the alert check inspects. -/
structure ProjectScan where
  assignedIds : List Nat
  alertSent : Bool
  warningsText : String
deriving DecidableEq, Repr

/-- One project of `AlbedoScheduler.proactive_task_monitoring`
(`scheduler.py`, lines 262-287): fetch the warnings text, take the first
3 `todo` tasks (newest created first), hand those with high or critical
priority to `auto_assign_task`, and send the project alert only when the
warnings text contains the capitalised substring `Overdue` or
`Blocked`. -/
def proactive_monitor_project (projects : List ProjectRec)
    (db : List TaskRec) (now : Int) (p : ProjectRec) : ProjectScan :=
  let warnings := get_project_warnings_tool projects db now p.name
  let tasks := get_tasks_by_project db p.id (some "todo") none
  { assignedIds := (tasks.take 3).foldl (fun acc t =>
      if t.priority == "high" || t.priority == "critical" then acc ++ [t.id]
      else acc) [],
    alertSent := occursIn "Overdue" warnings || occursIn "Blocked" warnings,
    warningsText := warnings }

/-- A full `proactive_task_monitoring` cycle: one scan per active
project. -/
def proactive_task_monitoring (projects : List ProjectRec)
    (db : List TaskRec) (now : Int) : List ProjectScan :=
  (get_active_projects projects).map (proactive_monitor_project projects db now)

/-- The single active project of the monitoring scenario. -/
def projWebsite : ProjectRec :=
  { id := 1, name := "Website", status := "active", priority := "high" }

/-- Scenario store: one task overdue by 5 days (non-done) and one task
blocked whose last update is 4 days old, evaluated at day 10. -/
def dbScenario : List TaskRec :=
  [ { id := 1, title := "Fix login page", description := none,
      status := "in_progress", priority := "medium",
      assigned_to := some "dev", due_date := some 5, updated_at := 8,
      created_at := 0, project_id := 1 },
    { id := 2, title := "Deploy service", description := none,
      status := "blocked", priority := "medium", assigned_to := some "dev",
      due_date := none, updated_at := 6, created_at := 0, project_id := 1 } ]

/-- The warnings text the scenario produces. -/
def warnScenario : String :=
  get_project_warnings_tool [projWebsite] dbScenario 10 "Website"

/-- Claim C2: the claim says the scan cycle reports both an Overdue and
a StaleBlocked alert for this project.  The warnings text does contain
both sections (`overdue task(s)` and `blocked > 3 days`), and no
auto-assignment is attempted, but the scheduler sends no alert at all:
its case-sensitive check greps the warnings text for the capitalised
substrings `Overdue` and `Blocked`, which `get_project_warnings_tool`
never emits — so the alert branch cannot fire and the cycle reports
nothing. -/
theorem claim_C2_alert_never_sent :
    proactive_task_monitoring [projWebsite] dbScenario 10
        = [⟨[], false, warnScenario⟩]
      ∧ occursIn "overdue task(s)" warnScenario = true
      ∧ occursIn "blocked > 3 days" warnScenario = true
      ∧ occursIn "Overdue" warnScenario = false
      ∧ occursIn "Blocked" warnScenario = false :=
  ⟨rfl, rfl, rfl, rfl, rfl⟩

/-- Store of the selection counterexample: project 2 has one critical
`todo` task created first (id 11) and three medium `todo` tasks created
later (ids 12, 13, 14). -/
def dbPriority : List TaskRec :=
  [ { id := 11, title := "Harden session handling", description := none,
      status := "todo", priority := "critical", assigned_to := none,
      due_date := none, updated_at := 0, created_at := 0, project_id := 2 },
    { id := 12, title := "Tweak copy", description := none,
      status := "todo", priority := "medium", assigned_to := none,
      due_date := none, updated_at := 0, created_at := 1, project_id := 2 },
    { id := 13, title := "Adjust spacing", description := none,
      status := "todo", priority := "medium", assigned_to := none,
      due_date := none, updated_at := 0, created_at := 2, project_id := 2 },
    { id := 14, title := "Rename labels", description := none,
      status := "todo", priority := "medium", assigned_to := none,
      due_date := none, updated_at := 0, created_at := 3, project_id := 2 } ]

theorem foldl_select_ids (pred : TaskRec → Bool) :
    ∀ (l : List TaskRec) (acc : List Nat),
      l.foldl (fun a t => if pred t then a ++ [t.id] else a) acc
        = acc ++ (l.filter pred).map (fun t => t.id) := by
  intro l
  induction l with
  | nil => intro acc; simp
  | cons t ts ih =>
      intro acc
      by_cases h : pred t
      · simp [h, ih]
      · simp [h, ih]

/-- Claim C4 counterexample: the claim says the monitor selects up to 3
eligible (high/critical) tasks highest-priority-first.  Here the project
has one critical `todo` task and three newer medium `todo` tasks: the
code slices the first 3 tasks in newest-created-first order before
filtering by priority, so the slice holds only the three medium tasks
and nothing is selected, although an eligible critical task exists and
the 3-task cap is not reached. -/
theorem claim_C4_counterexample :
    (proactive_monitor_project [⟨2, "Api", "active", "high"⟩] dbPriority 10
        ⟨2, "Api", "active", "high"⟩).assignedIds = []
      ∧ (dbPriority.filter (fun t =>
          t.project_id == 2 && t.status == "todo"
            && (t.priority == "high" || t.priority == "critical"))).map
          (fun t => t.id) = [11] :=
  ⟨rfl, rfl⟩

/-- Claim C4 (amended): on every scan, for each project the monitor
slices the first 3 `todo` tasks in newest-created-first order and hands
exactly those of the slice with high or critical priority to
auto-assignment (so an older eligible task outside the newest 3 is
skipped), and every task whose content matches the architecture/review
keyword set is excluded from dispatch by `auto_assign_task`, which
answers it with the lead-reviewer flag instead. -/
theorem claim_C4_selection (projects : List ProjectRec) (db : List TaskRec)
    (now : Int) (net : String → Nat → AttemptResult) (p : ProjectRec) :
    (proactive_monitor_project projects db now p).assignedIds
        = (((get_tasks_by_project db p.id (some "todo") none).take 3).filter
            (fun t => t.priority == "high" || t.priority == "critical")).map
          (fun t => t.id)
      ∧ (∀ i t, get_task_by_id db i = some t →
          architecture_keywords.any
            (fun kw => occursIn kw (blobOf t.title (t.description.getD "")))
            = true →
          auto_assign_task db net i = .leadDev i) := by
  constructor
  · simpa [proactive_monitor_project] using
      foldl_select_ids
        (fun t => t.priority == "high" || t.priority == "critical")
        ((get_tasks_by_project db p.id (some "todo") none).take 3) []
  · intro i t hfind harch
    simp [auto_assign_task, hfind, harch]

/-- Store holding a single architecture/review task, used by the
selection witness. -/
def dbArch : List TaskRec :=
  [ { id := 21, title := "Code review of auth module", description := none,
      status := "todo", priority := "high", assigned_to := none,
      due_date := none, updated_at := 0, created_at := 0, project_id := 2 } ]

theorem claim_C4_selection_w :
    (proactive_monitor_project [⟨2, "Api", "active", "high"⟩] dbPriority 10
          ⟨2, "Api", "active", "high"⟩).assignedIds
        = (((get_tasks_by_project dbPriority 2 (some "todo") none).take 3).filter
            (fun t => t.priority == "high" || t.priority == "critical")).map
          (fun t => t.id)
      ∧ auto_assign_task dbArch netAlwaysOk 21 = .leadDev 21 :=
  ⟨(claim_C4_selection [⟨2, "Api", "active", "high"⟩] dbPriority 10 netAlwaysOk
      ⟨2, "Api", "active", "high"⟩).1,
   (claim_C4_selection [] dbArch 10 netAlwaysOk
      ⟨2, "Api", "active", "high"⟩).2 21
      { id := 21, title := "Code review of auth module", description := none,
        status := "todo", priority := "high", assigned_to := none,
        due_date := none, updated_at := 0, created_at := 0, project_id := 2 }
      rfl rfl⟩

/-! ## Agent lifecycle (`agent_management_tools.py`). -/

/-- One registered worker as `get_all_agents` reports it: key, display
name, listening port, specialty text and keyword profile. -/
structure AgentEntry where
  key : String
  name : String
  port : Nat
  specialty : String
  keywords : List String
deriving DecidableEq, Repr

/-- The numeric tails of the three static endpoints
(`int(endpoint.split(":")[-1])` in Python). -/
def staticPorts : List Nat := [3001, 3002, 3003]

/-- The static part of `get_all_agents`: the `DEV_AGENTS` entries with
their ports read off the endpoints. -/
def staticAgents : List AgentEntry :=
  (DEV_AGENTS.zip staticPorts).map (fun x =>
    { key := x.1.key, name := x.1.name, port := x.2,
      specialty := x.1.specialty, keywords := x.1.keywords })

/-- Mutable lifecycle state: the dynamically registered agents
(`agent_config.json`) and the scaffolded worker directories under
`dev-agents/`. -/
structure LifecycleState where
  dynamicAgents : List AgentEntry
  dirs : List String
deriving DecidableEq, Repr

/-- `get_all_agents`: static entries first, then dynamic entries whose
key does not duplicate a static key. -/
def get_all_agents (st : LifecycleState) : List AgentEntry :=
  staticAgents
    ++ st.dynamicAgents.filter (fun a =>
      !(DEV_AGENTS.any (fun s => s.key == a.key)))

/-- Result of `create_new_agent`, one constructor per return site. -/
inductive CreateResult where
  | invalidPort (port : Nat)
  | duplicatePort (port : Nat) (holder : String)
  | approvalRequest
  | dirExists (dir : String)
  | templateMissing
  | created
deriving DecidableEq, Repr

/-- Python dict assignment `agents[key] = entry` of
`register_agent_in_config`: replace the entry of an existing key in
place, otherwise append. -/
def upsertAgent (l : List AgentEntry) (key : String) (e : AgentEntry) :
    List AgentEntry :=
  if l.any (fun a => a.key == key) then
    l.map (fun a => if a.key == key then e else a)
  else l ++ [e]

/-- `create_new_agent`: reject a port outside 3001-3010, then a port
already held by any existing agent, then (by default) stop at the
approval request; only past all three gates does it scaffold the worker
directory from the frontend template and register the new entry (whose
`specialty` field Python fills with the description text). -/
def create_new_agent (st : LifecycleState) (agent_name specialty : String)
    (port : Nat) (keywords : List String) (description : String)
    (request_approval : Bool) : CreateResult × LifecycleState :=
  if port < 3001 ∨ 3010 < port then (.invalidPort port, st)
  else
    match (get_all_agents st).find? (fun a => a.port == port) with
    | some holder => (.duplicatePort port holder.name, st)
    | none =>
        if request_approval then (.approvalRequest, st)
        else
          let dirName := toLowerStr specialty ++ "-agent"
          if st.dirs.contains dirName then (.dirExists dirName, st)
          else if !(st.dirs.contains "frontend-agent") then
            (.templateMissing, st)
          else
            (.created,
              { dynamicAgents := upsertAgent st.dynamicAgents
                  (toLowerStr specialty)
                  { key := toLowerStr specialty, name := agent_name,
                    port := port, specialty := description,
                    keywords := keywords },
                dirs := st.dirs ++ [dirName] })

/-- Claim C9: a requested port outside the reserved range 3001-3010
always fails with the invalid-port error, and (for any state whose
existing ports all lie in the reserved range, as every reachable state
does) a port already held by an existing worker always fails with the
duplicate-port error naming the holder; in both failure cases the
returned state is exactly the input state — no partial insert and no
scaffolding. -/
theorem claim_C9_register_failures (st : LifecycleState)
    (agent_name specialty : String) (port : Nat) (keywords : List String)
    (description : String) (request_approval : Bool) :
    ((port < 3001 ∨ 3010 < port) →
      create_new_agent st agent_name specialty port keywords description
          request_approval
        = (.invalidPort port, st))
  ∧ ((∀ a ∈ get_all_agents st, 3001 ≤ a.port ∧ a.port ≤ 3010) →
      ∀ holder, (get_all_agents st).find? (fun a => a.port == port)
          = some holder →
        create_new_agent st agent_name specialty port keywords description
            request_approval
          = (.duplicatePort port holder.name, st)) := by
  constructor
  · intro h
    simp [create_new_agent, h]
  · intro hinv holder hfind
    have hmem : holder ∈ get_all_agents st := List.mem_of_find?_eq_some hfind
    have hport : holder.port = port := by
      have := List.find?_some hfind
      simpa using this
    have hrange := hinv holder hmem
    have hno : ¬ (port < 3001 ∨ 3010 < port) := by omega
    simp [create_new_agent, hno, hfind]

/-- Initial lifecycle state: no dynamic agents, only the frontend
template directory scaffolded. -/
def stInitial : LifecycleState :=
  { dynamicAgents := [], dirs := ["frontend-agent"] }

/-- The static backend entry, holder of port 3002 in the initial
state. -/
def backendStatic : AgentEntry :=
  (staticAgents.get? 1).getD (AgentEntry.mk "" "" 0 "" [])

theorem claim_C9_register_failures_w :
    create_new_agent stInitial "Testing Agent" "testing" 3011 ["test"]
        "QA specialist" true = (.invalidPort 3011, stInitial)
  ∧ create_new_agent stInitial "Testing Agent" "testing" 3002 ["test"]
        "QA specialist" true
      = (.duplicatePort 3002 "Backend Agent", stInitial) :=
  ⟨(claim_C9_register_failures stInitial "Testing Agent" "testing" 3011
      ["test"] "QA specialist" true).1 (by omega),
   (claim_C9_register_failures stInitial "Testing Agent" "testing" 3002
      ["test"] "QA specialist" true).2 (by decide) backendStatic rfl⟩

end DevTeam
